import Mathlib

/-!
Verification model of integration-cli/daemon.go, a test-fixture lifecycle
controller for a daemon subprocess.

Pure helpers of the Go file (argument assembly in StartWithLogFile, the
socket address in Daemon.sock, strconv.ParseBool as used by NewDaemon,
queryRootDir's result computation) are translated as Lean functions.

The effectful lifecycle operations are translated as functions of an
explicit, abstract behavior of the environment:
  - the readiness polling loop of StartWithLogFile is a function of the
    sequence of select outcomes (which channel fired at each iteration,
    what the HTTP attempt returned, the wall-clock seconds elapsed at the
    top of each iteration);
  - Stop and Kill are functions of the results of the signal / kill /
    pid-file-remove system calls and of when (if ever) the exit-wait
    channel fires.
Each function mirrors the Go control flow statement by statement; the
returned trace records the externally visible effects (error returned,
signals sent, kill calls, pid-file removals, whether the process handle
was left nil).
-/

/-- Prefix test on character lists: isPre n h is true when n is an initial
segment of h. -/
def isPre : List Char → List Char → Bool
  | [], _ => true
  | _ :: _, [] => false
  | a :: as, b :: bs => a == b && isPre as bs

/-- occursIn n h is true when n occurs as a contiguous run inside h. -/
def occursIn (n : List Char) : List Char → Bool
  | [] => n.isEmpty
  | b :: bs => isPre n (b :: bs) || occursIn n bs

/-- Model of Go strings.Contains s sub: does sub occur inside s. -/
def strContains (s sub : String) : Bool := occursIn sub.toList s.toList

/-- Model of Go strconv.ParseBool: some b for the twelve accepted literals,
none when parsing fails (in which case Go also returns the value false). -/
def parseBool (s : String) : Option Bool :=
  if s = "1" ∨ s = "t" ∨ s = "T" ∨ s = "true" ∨ s = "TRUE" ∨ s = "True" then
    some true
  else if s = "0" ∨ s = "f" ∨ s = "F" ∨ s = "false" ∨ s = "FALSE" ∨ s = "False" then
    some false
  else
    none

/-- The userlandProxy field computed by NewDaemon from the
DOCKER_USERLANDPROXY environment value.  The Go code starts from true and,
for a non-empty value, assigns the parsed value only when err is non-nil
(note the condition in the source is err != nil, not err == nil); on a
parse error strconv.ParseBool returns false, so a malformed value yields
false while every well-formed boolean leaves the default true. -/
def userlandProxyOf (env : String) : Bool :=
  if env = "" then true
  else
    match parseBool env with
    | some _ => true
    | none => false

/-- Static configuration of one Daemon instance, the fields of the Daemon
struct (plus the DOCKER_REMAP_ROOT environment value) that StartWithLogFile
reads when assembling the argument vector.  An empty remapRoot or
storageDriver models the unset value. -/
structure DaemonCfg where
  globalFlags : List String
  command : String
  root : String
  folder : String
  userlandProxy : Bool
  storageDriver : String
  useDefaultHost : Bool
  useDefaultTLSHost : Bool
  remapRoot : String
  deriving DecidableEq, Repr

/-- Model of Daemon.sock: the ephemeral unix socket URI under the instance
folder. -/
def sock (d : DaemonCfg) : String := "unix://" ++ d.folder ++ "/docker.sock"

/-- The userland-proxy flag string emitted by StartWithLogFile. -/
def upFlag (b : Bool) : String :=
  "--userland-proxy=" ++ (if b then "true" else "false")

/-- Model of the argument-vector assembly in StartWithLogFile (the appends
before exec.Command).  filepath.Join folder "exec-root" is modelled as
folder ++ "/exec-root", exact for the clean absolute folders the fixture
creates; the pidfile uses Sprintf and is plain concatenation in the source
as well. -/
def buildArgs (d : DaemonCfg) (providedArgs : List String) : List String :=
  let args := d.globalFlags ++
    [d.command,
     "--containerd", "/var/run/docker/libcontainerd/docker-containerd.sock",
     "--graph", d.root,
     "--exec-root", d.folder ++ "/exec-root",
     "--pidfile", d.folder ++ "/docker.pid",
     upFlag d.userlandProxy]
  let args := if !(d.useDefaultHost || d.useDefaultTLSHost) then
      args ++ ["--host", sock d]
    else args
  let args := if d.remapRoot ≠ "" then args ++ ["--userns-remap", d.remapRoot] else args
  let foundLog := providedArgs.any fun a =>
    strContains a "--log-level" || strContains a "-D" || strContains a "--debug"
  let foundSd := providedArgs.any fun a => strContains a "--storage-driver"
  let args := if !foundLog then args ++ ["--debug"] else args
  let args := if d.storageDriver ≠ "" && !foundSd then
      args ++ ["--storage-driver", d.storageDriver]
    else args
  args ++ providedArgs

/-- Configuration of the Scenario A and B instance: unix-ephemeral mode with
folder /tmp/d1, no global flags, no storage-driver override, no remap. -/
def cfgScenarioA : DaemonCfg :=
  { globalFlags := []
    command := "daemon"
    root := "/tmp/d1/root"
    folder := "/tmp/d1"
    userlandProxy := true
    storageDriver := ""
    useDefaultHost := false
    useDefaultTLSHost := false
    remapRoot := "" }

/-- Outcome of the GET /info interaction inside queryRootDir: the result of
client.Do, the response status, the result of readBody, the result of
json.Unmarshal on the body, and the DockerRootDir field the body carries
when unmarshalling succeeds.  Error results of the external calls are
abstract strings (none = nil error). -/
structure InfoResponse where
  doErr : Option String
  status : Nat
  readErr : Option String
  unmarshalErr : Option String
  rootDir : String
  deriving DecidableEq, Repr

/-- Model of Daemon.queryRootDir, given the result of getClientConfig and
the outcome of the /info request.  Request construction for the constant
URL cannot fail and is not modelled.  Mirrors the source: a readBody or
unmarshal error is returned with an empty root; a non-200 status with a
readable body returns an empty root and a nil error; only a 200 status
with a well-formed body returns the reported DockerRootDir. -/
def queryRootDir (cfgErr : Option String) (r : InfoResponse) :
    String × Option String :=
  match cfgErr with
  | some e => ("", some e)
  | none =>
    match r.doErr with
    | some e => ("", some e)
    | none =>
      match r.readErr with
      | some e => ("", some e)
      | none =>
        if r.status = 200 then
          match r.unmarshalErr with
          | none => (r.rootDir, none)
          | some e => ("", some e)
        else ("", none)

/-- Outcome of one /_ping polling attempt in the readiness loop of
StartWithLogFile: the result of getClientConfig, whether client.Do returned
an error (its value is unused by the source, which just continues), the
response status (only logged by the source), and the data for the
queryRootDir call made on the success path (its own getClientConfig result
and /info outcome). -/
structure Attempt where
  cfgErr : Option String
  doErr : Bool
  status : Nat
  rootCfgErr : Option String
  info : InfoResponse
  deriving DecidableEq, Repr

/-- Which select case fired at one iteration of the readiness loop: the
2-second time.After timer, the 500ms tick (carrying the attempt outcome),
or the process-exit wait channel.  The Go select chooses among the ready
cases; the event sequence is the resolution of that choice. -/
inductive PollEvent
  | after2s
  | tick (a : Attempt)
  | procExit
  deriving DecidableEq, Repr

/-- Result of the readiness loop: each constructor is one return statement
of the source loop.  neverStarted is the overall 5-second budget error
(Daemon exited and never started); timeout is the 2-second select timer
error (timeout: daemon does not respond); exitedDuringStartup is the
wait-channel return (Daemon exited during startup); configErr and rootErr
carry the propagated error of getClientConfig and of the root query; ok is
the nil return.  blocked is a model artifact for an exhausted event list
(in the running program the tick always eventually fires, so the loop
never blocks forever). -/
inductive PollResult
  | neverStarted
  | timeout
  | exitedDuringStartup
  | configErr (e : String)
  | rootErr (e : String)
  | ok
  | blocked
  deriving DecidableEq, Repr

/-- Model of the readiness loop of StartWithLogFile.  Each list element is
one loop iteration: the wall-clock seconds elapsed at the top of the loop
(the source compares Unix-second timestamps) and the select case that
fired.  The second component of the result is the value assigned to d.root
on the paths that reach the root query (the source multiple-assignment
stores the returned root even when the query errors); none means d.root
was not assigned. -/
def pollLoop : List (Nat × PollEvent) → PollResult × Option String
  | [] => (PollResult.blocked, none)
  | (elapsed, ev) :: rest =>
    if elapsed > 5 then (PollResult.neverStarted, none)
    else
      match ev with
      | PollEvent.after2s => (PollResult.timeout, none)
      | PollEvent.procExit => (PollResult.exitedDuringStartup, none)
      | PollEvent.tick a =>
        match a.cfgErr with
        | some e => (PollResult.configErr e, none)
        | none =>
          if a.doErr then pollLoop rest
          else
            match queryRootDir a.rootCfgErr a.info with
            | (r, some e) => (PollResult.rootErr e, some r)
            | (r, none) => (PollResult.ok, some r)

/-- Recognizes an iteration event that makes the source loop continue
polling: a tick whose attempt got a client config and whose Do call
completed with a transport-level failure. -/
def isRetryEvent : PollEvent → Bool
  | PollEvent.tick a => a.cfgErr == none && a.doErr
  | _ => false

/-- A polling attempt whose Do call fails at the transport level. -/
def failAttempt : Attempt :=
  { cfgErr := none
    doErr := true
    status := 0
    rootCfgErr := none
    info := { doErr := none, status := 0, readErr := none,
              unmarshalErr := none, rootDir := "" } }

/-- A polling attempt that completes with HTTP status 500 on /_ping while
the subsequent /info query succeeds normally. -/
def pingAttempt500 : Attempt :=
  { cfgErr := none
    doErr := false
    status := 500
    rootCfgErr := none
    info := { doErr := none, status := 200, readErr := none,
              unmarshalErr := none, rootDir := "/var/lib/docker" } }

/-- A polling attempt whose Do call is in flight for three seconds before
completing with a transport failure; the in-flight time shows up as the
jump of the elapsed clock before the next loop iteration. -/
def stalledAttempt : Attempt := failAttempt

/-- A polling attempt that completes normally with status 200 on /_ping and
a successful /info query reporting root /r. -/
def okAttempt : Attempt :=
  { cfgErr := none
    doErr := false
    status := 200
    rootCfgErr := none
    info := { doErr := none, status := 200, readErr := none,
              unmarshalErr := none, rootDir := "/r" } }

/-- An /info interaction whose Do call fails at the transport level. -/
def infoFail : InfoResponse :=
  { doErr := some "connection refused"
    status := 0
    readErr := none
    unmarshalErr := none
    rootDir := "" }

/-- A polling attempt that completes on /_ping but whose subsequent /info
query fails at the transport level. -/
def attemptInfoFail : Attempt :=
  { cfgErr := none
    doErr := false
    status := 200
    rootCfgErr := none
    info := infoFail }

/-- A polling attempt that completes on /_ping and whose /info query
completes with status 500 and a readable body. -/
def attemptInfo500 : Attempt :=
  { cfgErr := none
    doErr := false
    status := 200
    rootCfgErr := none
    info := { doErr := none, status := 500, readErr := none,
              unmarshalErr := none, rootDir := "ignored" } }

/-- How the escalation loop (labelled out2 in Daemon.Stop) ended: the
wait channel fired with the process exit result, a re-sent interrupt
signal failed, or the attempt counter exceeded 4 and the loop broke to the
kill. -/
inductive EscEnd
  | fromWait (e : Option String)
  | sigFail (e : String)
  | broke
  deriving DecidableEq, Repr

/-- Model of the escalation loop of Daemon.Stop.  i is the attempt counter
(1 on entry, counting the initial interrupt).  Each iteration selects
between the wait channel (waitAt i = some e means it fired at this
iteration) and the 1-second tick; on a tick the counter is incremented,
the loop breaks once it exceeds 4, otherwise the interrupt is re-sent
(sigRes indexed by the counter value at the send) and the loop repeats.
Returns the number of interrupts sent inside the loop, the final counter
value, and how the loop ended. -/
def escLoop (sigRes : Nat → Option String)
    (waitAt : Nat → Option (Option String)) (i : Nat) :
    Nat × Nat × EscEnd :=
  match waitAt i with
  | some e => (0, i, EscEnd.fromWait e)
  | none =>
    if h : i + 1 > 4 then (0, i + 1, EscEnd.broke)
    else
      match sigRes (i + 1) with
      | some e => (1, i + 1, EscEnd.sigFail e)
      | none =>
        let r := escLoop sigRes waitAt (i + 1)
        (r.1 + 1, r.2.1, r.2.2)
termination_by 5 - i
decreasing_by omega

/-- In-memory process handle state of a Daemon instance: whether d.cmd and
d.wait are non-nil. -/
structure DaemonHandle where
  cmdSet : Bool
  waitSet : Bool
  deriving DecidableEq, Repr

/-- Abstract behavior of the environment during one Stop call: results of
the successive Signal sends (indexed by the attempt counter at the send;
index 1 is the initial interrupt), whether the wait channel fires during
the 15-second window (and with which exit result), whether and when it
fires during the escalation loop, and the results of the Process.Kill and
pid-file os.Remove calls. -/
structure StopBehavior where
  sigRes : Nat → Option String
  waitWindow : Option (Option String)
  waitEsc : Nat → Option (Option String)
  killErr : Option String
  removeErr : Option String

/-- Externally visible effects of one Stop or Kill call: the returned
error, how many interrupt signals were sent, how many Process.Kill calls
were made, how many pid-file removals were attempted, how many escalation
tick iterations ran, whether the call returned by receiving from the wait
channel, and whether it returned because a Signal send failed. -/
structure StopTrace where
  ret : Option String
  interrupts : Nat
  kills : Nat
  pidRemoves : Nat
  escTicks : Nat
  viaWait : Bool
  sigFailed : Bool
  deriving DecidableEq, Repr

/-- Model of Daemon.Stop.  Mirrors the source: the not-started guard (d.cmd
or d.wait nil), the deferred handle clearing on every later return path,
the initial interrupt, the single-shot 15-second wait window (loop out1),
the escalation loop (out2), the kill, and the pid-file removal.  Returns
the trace and the handle state after the call. -/
def runStop (s : DaemonHandle) (b : StopBehavior) : StopTrace × DaemonHandle :=
  if !s.cmdSet || !s.waitSet then
    ({ ret := some "daemon not started", interrupts := 0, kills := 0,
       pidRemoves := 0, escTicks := 0, viaWait := false, sigFailed := false }, s)
  else
    let cleared : DaemonHandle := { cmdSet := false, waitSet := s.waitSet }
    match b.sigRes 1 with
    | some e =>
      ({ ret := some ("could not send signal: " ++ e), interrupts := 1,
         kills := 0, pidRemoves := 0, escTicks := 0, viaWait := false,
         sigFailed := true }, cleared)
    | none =>
      match b.waitWindow with
      | some e =>
        ({ ret := e, interrupts := 1, kills := 0, pidRemoves := 0,
           escTicks := 0, viaWait := true, sigFailed := false }, cleared)
      | none =>
        match escLoop b.sigRes b.waitEsc 1 with
        | (n, fi, EscEnd.fromWait e) =>
          ({ ret := e, interrupts := 1 + n, kills := 0, pidRemoves := 0,
             escTicks := fi - 1, viaWait := true, sigFailed := false }, cleared)
        | (n, fi, EscEnd.sigFail e) =>
          ({ ret := some ("could not send signal: " ++ e), interrupts := 1 + n,
             kills := 0, pidRemoves := 0, escTicks := fi - 1, viaWait := false,
             sigFailed := true }, cleared)
        | (n, fi, EscEnd.broke) =>
          match b.killErr with
          | some e =>
            ({ ret := some e, interrupts := 1 + n, kills := 1, pidRemoves := 0,
               escTicks := fi - 1, viaWait := false, sigFailed := false }, cleared)
          | none =>
            match b.removeErr with
            | some e =>
              ({ ret := some e, interrupts := 1 + n, kills := 1,
                 pidRemoves := 1, escTicks := fi - 1, viaWait := false,
                 sigFailed := false }, cleared)
            | none =>
              ({ ret := none, interrupts := 1 + n, kills := 1, pidRemoves := 1,
                 escTicks := fi - 1, viaWait := false, sigFailed := false },
               cleared)

/-- Model of Daemon.Kill: the not-started guard, the deferred handle
clearing, the Process.Kill call, and the pid-file removal. -/
def runKill (s : DaemonHandle) (killErr removeErr : Option String) :
    StopTrace × DaemonHandle :=
  if !s.cmdSet || !s.waitSet then
    ({ ret := some "daemon not started", interrupts := 0, kills := 0,
       pidRemoves := 0, escTicks := 0, viaWait := false, sigFailed := false }, s)
  else
    let cleared : DaemonHandle := { cmdSet := false, waitSet := s.waitSet }
    match killErr with
    | some e =>
      ({ ret := some e, interrupts := 0, kills := 1, pidRemoves := 0,
         escTicks := 0, viaWait := false, sigFailed := false }, cleared)
    | none =>
      match removeErr with
      | some e =>
        ({ ret := some e, interrupts := 0, kills := 1, pidRemoves := 1,
           escTicks := 0, viaWait := false, sigFailed := false }, cleared)
      | none =>
        ({ ret := none, interrupts := 0, kills := 1, pidRemoves := 1,
           escTicks := 0, viaWait := false, sigFailed := false }, cleared)

/-- A started instance: d.cmd and d.wait both non-nil. -/
def startedHandle : DaemonHandle := { cmdSet := true, waitSet := true }

/-- Behavior of a process that ignores every interrupt and never exits,
with all signal, kill and remove system calls succeeding. -/
def neverExit : StopBehavior :=
  { sigRes := fun _ => none
    waitWindow := none
    waitEsc := fun _ => none
    killErr := none
    removeErr := none }

/-- Behavior in which the very first Signal send fails while the process
keeps running. -/
def sigFailBehavior : StopBehavior :=
  { sigRes := fun _ => some "operation not permitted"
    waitWindow := none
    waitEsc := fun _ => none
    killErr := none
    removeErr := none }

/-- Behavior in which the process exits cleanly (nil wait result) during
the 15-second wait window. -/
def exitInWindow : StopBehavior :=
  { sigRes := fun _ => none
    waitWindow := some none
    waitEsc := fun _ => none
    killErr := none
    removeErr := none }

/-- Helper: with the userlandProxy field true, the literal
--userland-proxy=true is in the assembled argument vector. -/
theorem upFlag_mem (d : DaemonCfg) (extra : List String)
    (h : d.userlandProxy = true) :
    "--userland-proxy=true" ∈ buildArgs d extra := by
  have hlit : upFlag d.userlandProxy = "--userland-proxy=true" := by
    rw [h]; rfl
  simp only [buildArgs, hlit]
  split <;> split <;> split <;> split <;> simp

/-- Helper: a Stop call on a started instance ends with the process handle
cleared (the deferred function sets d.cmd to nil on every return path past
the guard). -/
theorem stop_clears_handle (s : DaemonHandle) (b : StopBehavior)
    (h1 : s.cmdSet = true) (h2 : s.waitSet = true) :
    (runStop s b).2 = { cmdSet := false, waitSet := s.waitSet } := by
  rcases hs : b.sigRes 1 with _ | e <;>
  rcases hw : b.waitWindow with _ | e2 <;>
  rcases hesc : escLoop b.sigRes b.waitEsc 1 with ⟨n, fi, ee⟩ <;>
  cases ee <;>
  rcases hk : b.killErr with _ | e3 <;>
  rcases hr : b.removeErr with _ | e4 <;>
  simp [runStop, h1, h2, hs, hw, hesc, hk, hr]

/-- Helper: whenever queryRootDir reports an error, the root it reports
alongside is the empty string. -/
theorem queryRootDir_err_root (c : Option String) (r : InfoResponse)
    (msg : String) (h : (queryRootDir c r).2 = some msg) :
    (queryRootDir c r).1 = "" := by
  rcases c with _ | e1 <;>
  rcases hd : r.doErr with _ | e2 <;>
  rcases hre : r.readErr with _ | e3 <;>
  rcases hu : r.unmarshalErr with _ | e4 <;>
  by_cases hst : r.status = 200 <;>
  simp_all [queryRootDir]

/-- C1: on a started instance whose process ignores the interrupt signal
and never exits (Stop's wait channel never fires, all system calls
succeed), Stop sends the initial interrupt, waits out the 15-second
window, runs exactly 4 escalation tick iterations of the 1-second
escalation loop (the attempt counter goes 1 to 5, re-sending the
interrupt on the first three ticks, so 4 interrupts are sent in total),
and only then issues exactly one hard-kill call. -/
theorem c1_stop_escalation :
    (runStop startedHandle neverExit).1 =
      { ret := none, interrupts := 4, kills := 1, pidRemoves := 1,
        escTicks := 4, viaWait := false, sigFailed := false } := by
  simp [runStop, neverExit, startedHandle, escLoop]

/-- C2 counterexample: a /_ping attempt that completes with HTTP status 500
(a transport-level success) terminates the readiness loop successfully on
the spot; the loop does not continue with further attempts, shown by the
untouched process-exit event queued behind it (had polling continued, the
result would have been the exited-during-startup error). -/
theorem c2_counterexample :
    pollLoop [(0, PollEvent.tick pingAttempt500), (1, PollEvent.procExit)] =
      (PollResult.ok, some "/var/lib/docker") ∧
    (pollLoop [(0, PollEvent.tick pingAttempt500),
               (1, PollEvent.procExit)]).1 ≠
      PollResult.exitedDuringStartup := by
  constructor
  · rfl
  · decide

/-- C2 amended: a non-2xx response is indeed non-fatal (it produces no
error by itself), but it does not cause further polling: any attempt whose
Do call completes, regardless of status code, ends the loop at this
iteration (the remaining events are irrelevant), while an attempt whose Do
call fails at the transport level makes the loop continue with the
remaining events. -/
theorem c2_completed_response_terminates :
    (∀ (e : Nat) (a : Attempt) (rest : List (Nat × PollEvent)), e ≤ 5 →
        a.cfgErr = none → a.doErr = false →
        pollLoop ((e, PollEvent.tick a) :: rest) =
          pollLoop [(e, PollEvent.tick a)]) ∧
    (∀ (e : Nat) (a : Attempt) (rest : List (Nat × PollEvent)), e ≤ 5 →
        a.cfgErr = none → a.doErr = true →
        pollLoop ((e, PollEvent.tick a) :: rest) = pollLoop rest) := by
  constructor <;> intro e a rest he h1 h2 <;>
    rcases hq : queryRootDir a.rootCfgErr a.info with ⟨r, _ | msg⟩ <;>
    simp [pollLoop, h1, h2, Nat.not_lt.2 he, hq]

/-- C2 witness: a completed 500 response at second 0 ends the loop with the
queued events discarded; a transport-failed attempt at second 1 continues
into the remaining events. -/
theorem c2_witness :
    pollLoop [(0, PollEvent.tick pingAttempt500), (2, PollEvent.procExit)] =
      pollLoop [(0, PollEvent.tick pingAttempt500)] ∧
    pollLoop [(1, PollEvent.tick failAttempt), (1, PollEvent.procExit)] =
      pollLoop [(1, PollEvent.procExit)] :=
  ⟨c2_completed_response_terminates.1 0 pingAttempt500
      [(2, PollEvent.procExit)] (by decide) (by decide) (by decide),
   c2_completed_response_terminates.2 1 failAttempt
      [(1, PollEvent.procExit)] (by decide) (by decide) (by decide)⟩

/-- C3 counterexample: when the initial Signal send fails while the
process keeps running, Stop returns the signal error at once: the process
has not exited (the return is not via the wait channel) and no hard-kill
call has been issued, refuting the claim that Stop returns only after one
of the two. -/
theorem c3_counterexample :
    (runStop startedHandle sigFailBehavior).1.viaWait = false ∧
    (runStop startedHandle sigFailBehavior).1.kills = 0 ∧
    (runStop startedHandle sigFailBehavior).1.ret =
      some "could not send signal: operation not permitted" := by decide

/-- C3 amended: Stop on a started instance returns only after the process
has exited (a wait-channel receive), a hard-kill call has been issued, or
an interrupt Signal send has failed; and on every return path it leaves
the process handle cleared. -/
theorem c3_stop_return_paths (s : DaemonHandle) (b : StopBehavior)
    (h1 : s.cmdSet = true) (h2 : s.waitSet = true) :
    (runStop s b).2.cmdSet = false ∧
    ((runStop s b).1.viaWait = true ∨ 1 ≤ (runStop s b).1.kills ∨
      (runStop s b).1.sigFailed = true) := by
  rcases hs : b.sigRes 1 with _ | e <;>
  rcases hw : b.waitWindow with _ | e2 <;>
  rcases hesc : escLoop b.sigRes b.waitEsc 1 with ⟨n, fi, ee⟩ <;>
  cases ee <;>
  rcases hk : b.killErr with _ | e3 <;>
  rcases hr : b.removeErr with _ | e4 <;>
  simp [runStop, h1, h2, hs, hw, hesc, hk, hr]

/-- C3 witness: the amended statement at the started instance with the
failing-signal behavior. -/
theorem c3_witness :
    (runStop startedHandle sigFailBehavior).2.cmdSet = false ∧
    ((runStop startedHandle sigFailBehavior).1.viaWait = true ∨
      1 ≤ (runStop startedHandle sigFailBehavior).1.kills ∨
      (runStop startedHandle sigFailBehavior).1.sigFailed = true) :=
  c3_stop_return_paths startedHandle sigFailBehavior rfl rfl

/-- C4 counterexample: an attempt whose network call stays in flight for 3
seconds (the elapsed clock jumps from 0 to 3 across it) does not make the
poller fail with the timeout error: the loop simply proceeds to the next
attempt, which here succeeds.  The 2-second timer is armed per select and
races only the tick and wait channels, not the in-flight call. -/
theorem c4_counterexample :
    pollLoop [(0, PollEvent.tick stalledAttempt),
              (3, PollEvent.tick okAttempt)] = (PollResult.ok, some "/r") ∧
    (pollLoop [(0, PollEvent.tick stalledAttempt),
               (3, PollEvent.tick okAttempt)]).1 ≠ PollResult.timeout := by
  constructor
  · rfl
  · decide

/-- C4 amended: the timeout error can only arise from the 2-second
time.After select case itself firing; it is never produced by an attempt
that runs long, so a run in which that timer never wins the select never
returns the timeout error, however long individual attempts take. -/
theorem c4_timeout_only_from_timer (events : List (Nat × PollEvent))
    (h : ∀ p ∈ events, p.2 ≠ PollEvent.after2s) :
    (pollLoop events).1 ≠ PollResult.timeout := by
  induction events with
  | nil => simp [pollLoop]
  | cons p rest ih =>
    obtain ⟨t, ev⟩ := p
    have hev : ev ≠ PollEvent.after2s := h (t, ev) (by simp)
    have hrest : ∀ q ∈ rest, q.2 ≠ PollEvent.after2s :=
      fun q hq => h q (by simp [hq])
    by_cases ht : t > 5
    · simp [pollLoop, ht]
    · cases ev with
      | after2s => exact absurd rfl hev
      | procExit => simp [pollLoop, ht]
      | tick a =>
        rcases hc : a.cfgErr with _ | e
        · by_cases hd : a.doErr = true
          · simpa [pollLoop, ht, hc, hd] using ih hrest
          · rcases hq : queryRootDir a.rootCfgErr a.info with ⟨r, _ | msg⟩ <;>
              simp [pollLoop, ht, hc, hd, hq]
        · simp [pollLoop, ht, hc]

/-- C4 witness: the amended statement on the concrete stalled-attempt run. -/
theorem c4_witness :
    (pollLoop [(0, PollEvent.tick stalledAttempt),
               (3, PollEvent.tick okAttempt)]).1 ≠ PollResult.timeout :=
  c4_timeout_only_from_timer
    [(0, PollEvent.tick stalledAttempt), (3, PollEvent.tick okAttempt)]
    (by decide)

/-- C5: if, after any number of retry-eligible attempts (transport
failures) within the 5-second budget, the process-exit wait channel wins
the select while the budget is not yet exceeded, the readiness loop
returns the exited-during-startup error immediately, not the overall
deadline error. -/
theorem c5_exit_short_circuits (pre : List (Nat × PollEvent)) (e : Nat)
    (rest : List (Nat × PollEvent))
    (hpre : ∀ p ∈ pre, p.1 ≤ 5 ∧ isRetryEvent p.2 = true) (he : e ≤ 5) :
    pollLoop (pre ++ (e, PollEvent.procExit) :: rest) =
      (PollResult.exitedDuringStartup, none) := by
  induction pre with
  | nil => simp [pollLoop, Nat.not_lt.2 he]
  | cons p tl ih =>
    obtain ⟨t, ev⟩ := p
    obtain ⟨ht, hretry⟩ := hpre (t, ev) (by simp)
    have htl : ∀ q ∈ tl, q.1 ≤ 5 ∧ isRetryEvent q.2 = true :=
      fun q hq => hpre q (by simp [hq])
    cases ev with
    | after2s => simp [isRetryEvent] at hretry
    | procExit => simp [isRetryEvent] at hretry
    | tick a =>
      simp only [isRetryEvent, Bool.and_eq_true, beq_iff_eq] at hretry
      obtain ⟨hc, hd⟩ := hretry
      simpa [pollLoop, Nat.not_lt.2 ht, hc, hd] using ih htl

/-- C5 witness: Scenario D, a failing attempt at second 0 and the process
exit observed at second 1, returns the exited-during-startup error. -/
theorem c5_witness :
    pollLoop [(0, PollEvent.tick failAttempt), (1, PollEvent.procExit)] =
      (PollResult.exitedDuringStartup, none) :=
  c5_exit_short_circuits [(0, PollEvent.tick failAttempt)] 1 []
    (by decide) (by decide)

/-- C6: for the unix-ephemeral instance with folder /tmp/d1, Start with no
extra args assembles an argument vector containing --debug and the
adjacent pair --host unix:///tmp/d1/docker.sock; Start with the extra arg
--log-level=warn assembles a vector without any injected --debug, the
caller-supplied extra arg coming last.  Both vectors are given in full. -/
theorem c6_start_args :
    buildArgs cfgScenarioA [] =
      ["daemon",
       "--containerd", "/var/run/docker/libcontainerd/docker-containerd.sock",
       "--graph", "/tmp/d1/root",
       "--exec-root", "/tmp/d1/exec-root",
       "--pidfile", "/tmp/d1/docker.pid",
       "--userland-proxy=true",
       "--host", "unix:///tmp/d1/docker.sock",
       "--debug"] ∧
    "--debug" ∈ buildArgs cfgScenarioA [] ∧
    buildArgs cfgScenarioA ["--log-level=warn"] =
      ["daemon",
       "--containerd", "/var/run/docker/libcontainerd/docker-containerd.sock",
       "--graph", "/tmp/d1/root",
       "--exec-root", "/tmp/d1/exec-root",
       "--pidfile", "/tmp/d1/docker.pid",
       "--userland-proxy=true",
       "--host", "unix:///tmp/d1/docker.sock",
       "--log-level=warn"] ∧
    "--debug" ∉ buildArgs cfgScenarioA ["--log-level=warn"] := by decide

/-- C7: after a first Stop on a started instance (under any environment
behavior), a second Stop returns the daemon-not-started error and performs
no signal, kill or pid-file-removal work, and leaves the state unchanged,
because the first call cleared the in-memory handle on its way out. -/
theorem c7_stop_idempotent (s : DaemonHandle) (b1 b2 : StopBehavior)
    (h1 : s.cmdSet = true) (h2 : s.waitSet = true) :
    (runStop (runStop s b1).2 b2).1 =
      { ret := some "daemon not started", interrupts := 0, kills := 0,
        pidRemoves := 0, escTicks := 0, viaWait := false,
        sigFailed := false } ∧
    (runStop (runStop s b1).2 b2).2 = (runStop s b1).2 := by
  rw [stop_clears_handle s b1 h1 h2]
  constructor <;> rfl

/-- C7 witness: Stop twice on a started instance, the first under the
never-exiting behavior, the second with any behavior. -/
theorem c7_witness :
    (runStop (runStop startedHandle neverExit).2 exitInWindow).1 =
      { ret := some "daemon not started", interrupts := 0, kills := 0,
        pidRemoves := 0, escTicks := 0, viaWait := false,
        sigFailed := false } ∧
    (runStop (runStop startedHandle neverExit).2 exitInWindow).2 =
      (runStop startedHandle neverExit).2 :=
  c7_stop_idempotent startedHandle neverExit exitInWindow rfl rfl

/-- C8 counterexample: when the process exits cleanly during the 15-second
wait window, Stop returns nil (a successful termination) without ever
attempting to remove the pid file, refuting the claim that every
successful termination path removes the pid-file artifact. -/
theorem c8_counterexample :
    (runStop startedHandle exitInWindow).1.ret = none ∧
    (runStop startedHandle exitInWindow).1.viaWait = true ∧
    (runStop startedHandle exitInWindow).1.pidRemoves = 0 := by decide

/-- C8 amended: the pid file is removed only on the hard-kill paths: a
Stop that returns because the process exited (wait-channel receive) never
touches the pid file; Stop attempts the removal exactly when a hard-kill
call was made and succeeded; and on both Stop's and Kill's kill paths a
pid-file removal failure is surfaced as the returned error even though
the process was killed. -/
theorem c8_pidfile_removal (s : DaemonHandle) (b : StopBehavior)
    (ke re : Option String) (msg : String)
    (h1 : s.cmdSet = true) (h2 : s.waitSet = true) :
    ((runStop s b).1.viaWait = true → (runStop s b).1.pidRemoves = 0) ∧
    ((runStop s b).1.pidRemoves = 1 ↔
      (runStop s b).1.kills = 1 ∧ b.killErr = none) ∧
    ((runStop s b).1.kills = 1 → b.killErr = none →
      b.removeErr = some msg → (runStop s b).1.ret = some msg) ∧
    (ke = none → re = some msg →
      (runKill s ke re).1.pidRemoves = 1 ∧
        (runKill s ke re).1.ret = some msg) := by
  rcases hs : b.sigRes 1 with _ | e <;>
  rcases hw : b.waitWindow with _ | e2 <;>
  rcases hesc : escLoop b.sigRes b.waitEsc 1 with ⟨n, fi, ee⟩ <;>
  cases ee <;>
  rcases hk : b.killErr with _ | e3 <;>
  rcases hr : b.removeErr with _ | e4 <;>
  rcases ke with _ | k1 <;> rcases re with _ | r1 <;>
  simp [runStop, runKill, h1, h2, hs, hw, hesc, hk, hr]

/-- C8 witness: the amended statement at the started instance, the
never-exiting behavior, a successful kill and a failing pid-file
removal. -/
theorem c8_witness :
    ((runStop startedHandle neverExit).1.viaWait = true →
      (runStop startedHandle neverExit).1.pidRemoves = 0) ∧
    ((runStop startedHandle neverExit).1.pidRemoves = 1 ↔
      (runStop startedHandle neverExit).1.kills = 1 ∧
        neverExit.killErr = none) ∧
    ((runStop startedHandle neverExit).1.kills = 1 →
      neverExit.killErr = none →
      neverExit.removeErr = some "permission denied" →
      (runStop startedHandle neverExit).1.ret = some "permission denied") ∧
    ((none : Option String) = none →
      (some "permission denied" : Option String) = some "permission denied" →
      (runKill startedHandle none (some "permission denied")).1.pidRemoves = 1 ∧
        (runKill startedHandle none
          (some "permission denied")).1.ret = some "permission denied") :=
  c8_pidfile_removal startedHandle neverExit none (some "permission denied")
    "permission denied" rfl rfl

/-- C9: whenever DOCKER_USERLANDPROXY holds a well-formed boolean
(including the false literals), NewDaemon leaves userlandProxy at its
default true, because the source assigns the parsed value only under
err != nil; when the non-empty value fails to parse the field becomes
false (ParseBool's zero result); and consequently Start emits
--userland-proxy=true for every well-formed value. -/
theorem c9_userland_proxy :
    (∀ (env : String) (b : Bool), parseBool env = some b →
        userlandProxyOf env = true) ∧
    (∀ env : String, env ≠ "" → parseBool env = none →
        userlandProxyOf env = false) ∧
    (∀ (env : String) (b : Bool) (d : DaemonCfg) (extra : List String),
        parseBool env = some b →
        "--userland-proxy=true" ∈
          buildArgs { d with userlandProxy := userlandProxyOf env } extra) := by
  refine ⟨?_, ?_, ?_⟩
  · intro env b h
    by_cases he : env = ""
    · simp [userlandProxyOf, he]
    · simp [userlandProxyOf, he, h]
  · intro env he h
    simp [userlandProxyOf, he, h]
  · intro env b d extra h
    have hup : userlandProxyOf env = true := by
      by_cases he : env = ""
      · simp [userlandProxyOf, he]
      · simp [userlandProxyOf, he, h]
    exact upFlag_mem _ extra hup

/-- C9 witness: the value false parses, leaves the flag true, and the
emitted vector contains --userland-proxy=true; the malformed value bogus
turns the flag false. -/
theorem c9_witness :
    userlandProxyOf "false" = true ∧
    userlandProxyOf "bogus" = false ∧
    "--userland-proxy=true" ∈
      buildArgs { cfgScenarioA with
                  userlandProxy := userlandProxyOf "false" } [] :=
  ⟨c9_userland_proxy.1 "false" false (by decide),
   c9_userland_proxy.2.1 "bogus" (by decide) (by decide),
   c9_userland_proxy.2.2 "false" false cfgScenarioA [] (by decide)⟩

/-- C10: whenever queryRootDir reports an error its returned root is the
empty string; so when the post-start /info query fails, the readiness
loop returns the root-query error with d.root already overwritten by the
empty string (the multiple-assignment stores the root before the error
check); and when /info completes with a non-200 status and a readable
body, queryRootDir returns the empty string with a nil error, so Start
succeeds with root equal to the empty string. -/
theorem c10_root_overwrite :
    (∀ (c : Option String) (r : InfoResponse) (msg : String),
        (queryRootDir c r).2 = some msg → (queryRootDir c r).1 = "") ∧
    (∀ (e : Nat) (a : Attempt) (rest : List (Nat × PollEvent)) (msg : String),
        e ≤ 5 → a.cfgErr = none → a.doErr = false →
        (queryRootDir a.rootCfgErr a.info).2 = some msg →
        pollLoop ((e, PollEvent.tick a) :: rest) =
          (PollResult.rootErr msg, some "")) ∧
    (∀ (e : Nat) (a : Attempt) (rest : List (Nat × PollEvent)),
        e ≤ 5 → a.cfgErr = none → a.doErr = false → a.rootCfgErr = none →
        a.info.doErr = none → a.info.readErr = none → a.info.status ≠ 200 →
        pollLoop ((e, PollEvent.tick a) :: rest) =
          (PollResult.ok, some "")) := by
  refine ⟨queryRootDir_err_root, ?_, ?_⟩
  · intro e a rest msg he h1 h2 hq
    have h0 := queryRootDir_err_root _ _ _ hq
    rcases hqq : queryRootDir a.rootCfgErr a.info with ⟨r0, s0⟩
    rw [hqq] at hq h0
    simp only at hq h0
    subst h0
    subst hq
    simp [pollLoop, Nat.not_lt.2 he, h1, h2, hqq]
  · intro e a rest he h1 h2 h3 h4 h5 h6
    have hq : queryRootDir a.rootCfgErr a.info = ("", none) := by
      simp [queryRootDir, h3, h4, h5, h6]
    simp [pollLoop, Nat.not_lt.2 he, h1, h2, hq]

/-- C10 witness: a failing /info query at second 0 returns the root-query
error with the empty root stored; a 500 /info response returns success
with the empty root stored. -/
theorem c10_witness :
    (queryRootDir none infoFail).1 = "" ∧
    pollLoop [(0, PollEvent.tick attemptInfoFail)] =
      (PollResult.rootErr "connection refused", some "") ∧
    pollLoop [(0, PollEvent.tick attemptInfo500)] =
      (PollResult.ok, some "") :=
  ⟨c10_root_overwrite.1 none infoFail "connection refused" (by decide),
   c10_root_overwrite.2.1 0 attemptInfoFail [] "connection refused"
     (by decide) (by decide) (by decide) (by decide),
   c10_root_overwrite.2.2 0 attemptInfo500 [] (by decide) (by decide)
     (by decide) (by decide) (by decide) (by decide) (by decide)⟩
